import Mathlib

/-!
Verification development for the jrust slab allocator
(src/src/memory/slab.rs): a segregated-size slab heap with seven
fixed-block-size classes (64..4096 bytes) plus a linked-list fallback
allocator for large requests, wrapped behind a spin-locked optional heap
(`LockedHeap`).

Machine integers (`usize`) are embedded as `Nat`; the arithmetic in the
embedded functions (range splitting, the routing ladder) never wraps for
the inputs the assertions admit, so no modular reduction is needed.
Panics (`assert!`, `panic!`) are embedded as `Except.error` with the
source's message string; raw pointers are addresses (`Nat`), with `0`
playing the role of the null pointer (`NonNull::new` fails exactly on
null).
-/

namespace JRust

/-- Constant `NUM_OF_SLABS` from slab.rs line 24. -/
def NUM_OF_SLABS : Nat := 8

/-- Constant `MIN_SLAB_SIZE` from slab.rs line 25. -/
def MIN_SLAB_SIZE : Nat := 4096

/-- Constant `MIN_HEAP_SIZE = NUM_OF_SLABS * MIN_SLAB_SIZE` from slab.rs line 26. -/
def MIN_HEAP_SIZE : Nat := NUM_OF_SLABS * MIN_SLAB_SIZE

/-- A request descriptor: `core::alloc::Layout`, a `(size, align)` pair. -/
structure Layout where
  size : Nat
  align : Nat
deriving DecidableEq

/-- Allocation failure value (`alloc::alloc::AllocErr`): the routed
allocator had no free block for the request. -/
inductive AllocErr where
  | OutOfMemory
deriving DecidableEq

/-- The class-tag enum `HeapAllocator` from slab.rs lines 36-45. -/
inductive HeapAllocator where
  | Slab64Bytes
  | Slab128Bytes
  | Slab256Bytes
  | Slab512Bytes
  | Slab1024Bytes
  | Slab2048Bytes
  | Slab4096Bytes
  | LinkedListAllocator
deriving DecidableEq

/-- Modelled from the spec: the source declares `struct Slab` (slab.rs
lines 28-33) with a self-referential field `m_nextSlab: Slab`, an
incomplete sketch, and the `Slab::new/allocate/deallocate` bodies called
by `Heap` are not in src.  Per spec section 3 a slab class owns a
half-open byte range, a fixed `block_size`, and an intrusive free list;
we carry the free list as the list of free block addresses, head first. -/
structure Slab where
  slabStart : Nat
  slabSize : Nat
  blockSize : Nat
  freeList : List Nat
deriving DecidableEq

/-- Modelled from the spec (section 4.1): `Slab::new(start, length,
block_size)` threads `length / block_size` free blocks, in ascending
address order, into the free list. -/
def Slab.new (start length block_size : Nat) : Slab :=
  { slabStart := start
    slabSize := length
    blockSize := block_size
    freeList := (List.range (length / block_size)).map fun i => start + i * block_size }

/-- Modelled from the spec (section 4.1): `allocate` pops the head of
the free list, failing with `OutOfMemory` when the list is empty. -/
def Slab.allocate (s : Slab) : Except AllocErr (Nat × Slab) :=
  match s.freeList with
  | [] => .error AllocErr.OutOfMemory
  | p :: rest => .ok (p, { s with freeList := rest })

/-- Modelled from the spec (section 4.1): `deallocate` pushes the block
address back onto the head of the free list. -/
def Slab.deallocate (s : Slab) (ptr : Nat) : Slab :=
  { s with freeList := ptr :: s.freeList }

/-- Modelled from the spec (section 4.3): the large-object fallback
(`linked_list_allocator::Heap`, an external crate) is opaque; the Heap
relies only on `new/allocate/deallocate/extend`.  We model it as an
address-ordered list of free `(address, length)` regions served
first-fit; the internal algorithm is unspecified by the spec and no
claim depends on it. -/
structure LinkedListHeap where
  holeStart : Nat
  holeSize : Nat
  free : List (Nat × Nat)
deriving DecidableEq

/-- Modelled from the spec: `linked_list_allocator::Heap::new(start,
size)` owns `[start, start+size)` as one free region. -/
def LinkedListHeap.new (start size : Nat) : LinkedListHeap :=
  { holeStart := start, holeSize := size, free := [(start, size)] }

/-- First-fit search over the free-region list: returns the served
address and the remaining regions. -/
def llFirstFit (size : Nat) : List (Nat × Nat) → Option (Nat × List (Nat × Nat))
  | [] => none
  | (a, len) :: rest =>
    if size ≤ len then
      some (a, if size < len then (a + size, len - size) :: rest else rest)
    else
      match llFirstFit size rest with
      | some (p, rest2) => some (p, (a, len) :: rest2)
      | none => none

/-- Modelled from the spec (section 4.3): large allocation is first-fit
over the free regions, `OutOfMemory` when none fits. -/
def LinkedListHeap.allocate (h : LinkedListHeap) (l : Layout) :
    Except AllocErr (Nat × LinkedListHeap) :=
  match llFirstFit l.size h.free with
  | some (p, rest) => .ok (p, { h with free := rest })
  | none => .error AllocErr.OutOfMemory

/-- Modelled from the spec (section 4.3): deallocation returns the
region `[ptr, ptr + layout.size)` to the free list. -/
def LinkedListHeap.deallocate (h : LinkedListHeap) (ptr : Nat) (l : Layout) :
    LinkedListHeap :=
  { h with free := (ptr, l.size) :: h.free }

/-- The composite `Heap` from slab.rs lines 47-56: seven slab classes
and the linked-list fallback. -/
structure Heap where
  slab_64_bytes : Slab
  slab_128_bytes : Slab
  slab_256_bytes : Slab
  slab_512_bytes : Slab
  slab_1024_bytes : Slab
  slab_2048_bytes : Slab
  slab_4096_bytes : Slab
  linked_list_allocator : LinkedListHeap
deriving DecidableEq

/-- The record expression in `Heap::new` (slab.rs lines 79-92), after
the assertions have passed: split the range into `NUM_OF_SLABS` equal
sub-ranges and hand them out in block-size order, the last one to the
linked-list allocator. -/
def Heap.build (heap_start_addr heap_size : Nat) : Heap :=
  let slab_size := heap_size / NUM_OF_SLABS
  { slab_64_bytes := Slab.new heap_start_addr slab_size 64
    slab_128_bytes := Slab.new (heap_start_addr + slab_size) slab_size 128
    slab_256_bytes := Slab.new (heap_start_addr + 2 * slab_size) slab_size 256
    slab_512_bytes := Slab.new (heap_start_addr + 3 * slab_size) slab_size 512
    slab_1024_bytes := Slab.new (heap_start_addr + 4 * slab_size) slab_size 1024
    slab_2048_bytes := Slab.new (heap_start_addr + 5 * slab_size) slab_size 2048
    slab_4096_bytes := Slab.new (heap_start_addr + 6 * slab_size) slab_size 4096
    linked_list_allocator :=
      LinkedListHeap.new (heap_start_addr + 7 * slab_size) slab_size }

/-- `Heap::new` (slab.rs lines 63-93): three `assert!`s guard the
construction; an assertion failure is a panic, embedded as `.error`
with the assertion's message. -/
def Heap.new (heap_start_addr heap_size : Nat) : Except String Heap :=
  if heap_start_addr % 4096 ≠ 0 then
    .error "Start address should be page aligned"
  else if ¬ heap_size ≥ MIN_HEAP_SIZE then
    .error "Heap size should be greater or equal to minimum heap size"
  else if heap_size % MIN_HEAP_SIZE ≠ 0 then
    .error "Heap size should be a multiple of minimum heap size"
  else
    .ok (Heap.build heap_start_addr heap_size)

/-- `Heap::layout_to_allocator` (slab.rs lines 150-168): the routing
ladder, translated branch for branch. -/
def Heap.layout_to_allocator (layout : Layout) : HeapAllocator :=
  if layout.size > 4096 then
    HeapAllocator.LinkedListAllocator
  else if layout.size ≤ 64 ∧ layout.align ≤ 64 then
    HeapAllocator.Slab64Bytes
  else if layout.size ≤ 128 ∧ layout.align ≤ 128 then
    HeapAllocator.Slab128Bytes
  else if layout.size ≤ 256 ∧ layout.align ≤ 256 then
    HeapAllocator.Slab256Bytes
  else if layout.size ≤ 512 ∧ layout.align ≤ 512 then
    HeapAllocator.Slab512Bytes
  else if layout.size ≤ 1024 ∧ layout.align ≤ 1024 then
    HeapAllocator.Slab1024Bytes
  else if layout.size ≤ 2048 ∧ layout.align ≤ 2048 then
    HeapAllocator.Slab2048Bytes
  else
    HeapAllocator.Slab4096Bytes

/-- The block size advertised by a slab-class tag; `none` for the
linked-list allocator. -/
def blockSizeOf : HeapAllocator → Option Nat
  | HeapAllocator.Slab64Bytes => some 64
  | HeapAllocator.Slab128Bytes => some 128
  | HeapAllocator.Slab256Bytes => some 256
  | HeapAllocator.Slab512Bytes => some 512
  | HeapAllocator.Slab1024Bytes => some 1024
  | HeapAllocator.Slab2048Bytes => some 2048
  | HeapAllocator.Slab4096Bytes => some 4096
  | HeapAllocator.LinkedListAllocator => none

/-- `Heap::usable_size` (slab.rs lines 136-147): `(size, block size of
the routed class)`, and `(size, size)` for the linked-list allocator.
The `&self` receiver is carried for signature fidelity; it is unused,
as in the source. -/
def Heap.usable_size (_h : Heap) (layout : Layout) : Nat × Nat :=
  match Heap.layout_to_allocator layout with
  | HeapAllocator.Slab64Bytes => (layout.size, 64)
  | HeapAllocator.Slab128Bytes => (layout.size, 128)
  | HeapAllocator.Slab256Bytes => (layout.size, 256)
  | HeapAllocator.Slab512Bytes => (layout.size, 512)
  | HeapAllocator.Slab1024Bytes => (layout.size, 1024)
  | HeapAllocator.Slab2048Bytes => (layout.size, 2048)
  | HeapAllocator.Slab4096Bytes => (layout.size, 4096)
  | HeapAllocator.LinkedListAllocator => (layout.size, layout.size)

/-- `Heap::allocate`: referenced by the `Alloc` impl (slab.rs line 184)
but its body is not in src.  Modelled from the spec (section 4.2):
route via `layout_to_allocator`, then delegate to the routed
sub-allocator, threading the updated heap state. -/
def Heap.allocate (h : Heap) (layout : Layout) : Except AllocErr (Nat × Heap) :=
  match Heap.layout_to_allocator layout with
  | HeapAllocator.Slab64Bytes =>
    (h.slab_64_bytes.allocate).map fun (p, s) => (p, { h with slab_64_bytes := s })
  | HeapAllocator.Slab128Bytes =>
    (h.slab_128_bytes.allocate).map fun (p, s) => (p, { h with slab_128_bytes := s })
  | HeapAllocator.Slab256Bytes =>
    (h.slab_256_bytes.allocate).map fun (p, s) => (p, { h with slab_256_bytes := s })
  | HeapAllocator.Slab512Bytes =>
    (h.slab_512_bytes.allocate).map fun (p, s) => (p, { h with slab_512_bytes := s })
  | HeapAllocator.Slab1024Bytes =>
    (h.slab_1024_bytes.allocate).map fun (p, s) => (p, { h with slab_1024_bytes := s })
  | HeapAllocator.Slab2048Bytes =>
    (h.slab_2048_bytes.allocate).map fun (p, s) => (p, { h with slab_2048_bytes := s })
  | HeapAllocator.Slab4096Bytes =>
    (h.slab_4096_bytes.allocate).map fun (p, s) => (p, { h with slab_4096_bytes := s })
  | HeapAllocator.LinkedListAllocator =>
    (h.linked_list_allocator.allocate layout).map
      fun (p, a) => (p, { h with linked_list_allocator := a })

/-- `Heap::deallocate` (slab.rs lines 119-132): route via
`layout_to_allocator` from the layout alone, then delegate. -/
def Heap.deallocate (h : Heap) (ptr : Nat) (layout : Layout) : Heap :=
  match Heap.layout_to_allocator layout with
  | HeapAllocator.Slab64Bytes =>
    { h with slab_64_bytes := h.slab_64_bytes.deallocate ptr }
  | HeapAllocator.Slab128Bytes =>
    { h with slab_128_bytes := h.slab_128_bytes.deallocate ptr }
  | HeapAllocator.Slab256Bytes =>
    { h with slab_256_bytes := h.slab_256_bytes.deallocate ptr }
  | HeapAllocator.Slab512Bytes =>
    { h with slab_512_bytes := h.slab_512_bytes.deallocate ptr }
  | HeapAllocator.Slab1024Bytes =>
    { h with slab_1024_bytes := h.slab_1024_bytes.deallocate ptr }
  | HeapAllocator.Slab2048Bytes =>
    { h with slab_2048_bytes := h.slab_2048_bytes.deallocate ptr }
  | HeapAllocator.Slab4096Bytes =>
    { h with slab_4096_bytes := h.slab_4096_bytes.deallocate ptr }
  | HeapAllocator.LinkedListAllocator =>
    { h with linked_list_allocator := h.linked_list_allocator.deallocate ptr layout }

/-- The eight sub-allocator ranges of a heap, in the order `Heap::new`
hands them out: the seven slab classes in block-size order, then the
linked-list allocator. -/
def Heap.ranges (h : Heap) : List (Nat × Nat) :=
  [ (h.slab_64_bytes.slabStart, h.slab_64_bytes.slabSize)
  , (h.slab_128_bytes.slabStart, h.slab_128_bytes.slabSize)
  , (h.slab_256_bytes.slabStart, h.slab_256_bytes.slabSize)
  , (h.slab_512_bytes.slabStart, h.slab_512_bytes.slabSize)
  , (h.slab_1024_bytes.slabStart, h.slab_1024_bytes.slabSize)
  , (h.slab_2048_bytes.slabStart, h.slab_2048_bytes.slabSize)
  , (h.slab_4096_bytes.slabStart, h.slab_4096_bytes.slabSize)
  , (h.linked_list_allocator.holeStart, h.linked_list_allocator.holeSize) ]

/-- Two half-open ranges `[start, start+len)` do not overlap. -/
def rangesDisjoint (r s : Nat × Nat) : Prop :=
  r.1 + r.2 ≤ s.1 ∨ s.1 + s.2 ≤ r.1

/-- The `LockedHeap` state: the spin lock serialises access, so each
operation is a function of the optional heap in the slot.  `LockedHeap::empty`
(slab.rs line 199) is the `none` state. -/
def LockedHeap.emptyState : Option Heap := none

/-- `LockedHeap::init` (slab.rs lines 203-205): `*self.0.lock() = Some(Heap::new(..))`.
The previous slot contents are not consulted. -/
def LockedHeap.init (_s : Option Heap) (heap_start_addr size : Nat) :
    Except String (Option Heap) :=
  (Heap.new heap_start_addr size).map fun h => some h

/-- `Alloc for &LockedHeap::alloc` (slab.rs lines 225-231): delegate to
the heap, panic when uninitialised. -/
def LockedHeap.alloc (s : Option Heap) (layout : Layout) :
    Except String (Except AllocErr (Nat × Heap)) :=
  match s with
  | some heap => .ok (heap.allocate layout)
  | none => .error "allocate: heap not initialized"

/-- `Alloc for &LockedHeap::dealloc` (slab.rs lines 233-239). -/
def LockedHeap.dealloc (s : Option Heap) (ptr : Nat) (layout : Layout) :
    Except String Heap :=
  match s with
  | some heap => .ok (heap.deallocate ptr layout)
  | none => .error "deallocate: heap not initialized"

/-- `Alloc for &LockedHeap::usable_size` (slab.rs lines 241-247). -/
def LockedHeap.usable_size (s : Option Heap) (layout : Layout) :
    Except String (Nat × Nat) :=
  match s with
  | some heap => .ok (heap.usable_size layout)
  | none => .error "usable_size: heap not initialized"

/-- `GlobalAlloc for LockedHeap::alloc` (slab.rs lines 251-261): on
`Ok` return the raw pointer, on allocation failure panic
`"allocate: failed"`, on an uninitialised heap panic (source spells the
message "initialzied"). -/
def LockedHeap.globalAlloc (s : Option Heap) (layout : Layout) :
    Except String (Nat × Heap) :=
  match s with
  | some heap =>
    match heap.allocate layout with
    | .ok (p, h2) => .ok (p, h2)
    | .error _ => .error "allocate: failed"
  | none => .error "allocate: heap not initialzied"

/-- `GlobalAlloc for LockedHeap::dealloc` (slab.rs lines 263-271):
`NonNull::new(ptr)` fails exactly on the null pointer, in which case
nothing is delegated and the heap is unchanged. -/
def LockedHeap.globalDealloc (s : Option Heap) (ptr : Nat) (layout : Layout) :
    Except String (Option Heap) :=
  match s with
  | some heap =>
    if ptr = 0 then .ok (some heap) else .ok (some (heap.deallocate ptr layout))
  | none => .error "deallocate: heap not initialized"

/-- Spec-side description of the routing ladder (spec section 4.2
"Selection policy", first matching row): the first block size in the
fixed list that accommodates both size and alignment. -/
def specFirstFitBlock (size align : Nat) : List Nat → Option Nat
  | [] => none
  | B :: rest => if size ≤ B ∧ align ≤ B then some B else specFirstFitBlock size align rest

/-- The slab-class tag with the given block size (Slab4096Bytes for any
other value; only applied to ladder block sizes). -/
def slabTagOf (B : Nat) : HeapAllocator :=
  if B = 64 then HeapAllocator.Slab64Bytes
  else if B = 128 then HeapAllocator.Slab128Bytes
  else if B = 256 then HeapAllocator.Slab256Bytes
  else if B = 512 then HeapAllocator.Slab512Bytes
  else if B = 1024 then HeapAllocator.Slab1024Bytes
  else if B = 2048 then HeapAllocator.Slab2048Bytes
  else HeapAllocator.Slab4096Bytes

/-- Spec-side router (spec section 4.2): large when `size > 4096`, else
the first fitting block size in {64,...,2048}, else Slab-4096. -/
def specRouter (size align : Nat) : HeapAllocator :=
  if size > 4096 then HeapAllocator.LinkedListAllocator
  else
    match specFirstFitBlock size align [64, 128, 256, 512, 1024, 2048] with
    | some B => slabTagOf B
    | none => HeapAllocator.Slab4096Bytes

/-- A concrete heap over `[0, 32768)`, mirroring the source's
`TestHeap` fixture (slab.rs lines 302-309: `Heap::new(addr, 8 * 4096)`). -/
def testHeap : Heap := Heap.build 0 32768

/-- `testHeap` with the Slab-64 free list exhausted: the state after
all 64-byte blocks have been handed out. -/
def heap64Exhausted : Heap :=
  { testHeap with slab_64_bytes := { testHeap.slab_64_bytes with freeList := [] } }

/-- C1: `Heap::layout_to_allocator` selects by the first matching row of
the fixed ladder: large when `size > 4096`, otherwise the first block
size B in {64, 128, 256, 512, 1024, 2048} with `size ≤ B ∧ align ≤ B`,
and Slab-4096 otherwise; in particular the boundary layout `(64, 64)`
lands in Slab-64. -/
theorem layout_to_allocator_first_matching_row :
    (∀ l : Layout, Heap.layout_to_allocator l = specRouter l.size l.align) ∧
    Heap.layout_to_allocator ⟨64, 64⟩ = HeapAllocator.Slab64Bytes := by
  constructor
  · intro l
    simp only [Heap.layout_to_allocator, specRouter, specFirstFitBlock, slabTagOf]
    split_ifs <;> simp_all
  · decide

/-- C2: for every layout with `size ≤ 4096` and `align ≤ 4096` a power
of two, the router returns a slab class (not the large allocator) whose
block size is at least `max size align`. -/
theorem layout_to_allocator_totality :
    ∀ l : Layout, l.size ≤ 4096 → l.align ≤ 4096 → (∃ k, l.align = 2 ^ k) →
      ∃ B, blockSizeOf (Heap.layout_to_allocator l) = some B ∧
        Nat.max l.size l.align ≤ B := by
  intro l hs ha _
  simp only [Heap.layout_to_allocator]
  split_ifs with h1 h2 h3 h4 h5 h6 h7
  · omega
  · exact ⟨64, rfl, Nat.max_le.mpr ⟨by omega, by omega⟩⟩
  · exact ⟨128, rfl, Nat.max_le.mpr ⟨by omega, by omega⟩⟩
  · exact ⟨256, rfl, Nat.max_le.mpr ⟨by omega, by omega⟩⟩
  · exact ⟨512, rfl, Nat.max_le.mpr ⟨by omega, by omega⟩⟩
  · exact ⟨1024, rfl, Nat.max_le.mpr ⟨by omega, by omega⟩⟩
  · exact ⟨2048, rfl, Nat.max_le.mpr ⟨by omega, by omega⟩⟩
  · exact ⟨4096, rfl, Nat.max_le.mpr ⟨by omega, by omega⟩⟩

/-- Witness for C2 at the concrete layout `(100, 8)`: routed to a slab
class of block size 128 ≥ max 100 8. -/
theorem layout_to_allocator_totality_witness :
    (100 : Nat) ≤ 4096 ∧ (8 : Nat) ≤ 4096 ∧
    ∃ B, blockSizeOf (Heap.layout_to_allocator ⟨100, 8⟩) = some B ∧
      Nat.max 100 8 ≤ B :=
  ⟨by decide, by decide,
    layout_to_allocator_totality ⟨100, 8⟩ (by decide) (by decide) ⟨3, rfl⟩⟩

/-- Counterexample to C3: the layout `(size 64, align 8192)` has
alignment strictly greater than 4096, yet the router sends it to
Slab-4096, not to the linked-list (large) allocator: the final `else`
of the ladder catches every `size ≤ 4096` layout regardless of
alignment. -/
theorem layout_to_allocator_align_counterexample :
    Heap.layout_to_allocator ⟨64, 8192⟩ = HeapAllocator.Slab4096Bytes ∧
    HeapAllocator.Slab4096Bytes ≠ HeapAllocator.LinkedListAllocator := by
  decide

/-- C3 amended: the router returns the large-allocator tag exactly when
`size > 4096`; a layout with `align > 4096` but `size ≤ 4096` falls
through the ladder to Slab-4096 instead. -/
theorem layout_to_allocator_large_iff :
    ∀ l : Layout,
      (Heap.layout_to_allocator l = HeapAllocator.LinkedListAllocator ↔
        4096 < l.size) ∧
      (l.size ≤ 4096 → 4096 < l.align →
        Heap.layout_to_allocator l = HeapAllocator.Slab4096Bytes) := by
  intro l
  simp only [Heap.layout_to_allocator]
  constructor
  · split_ifs <;> simp_all
  · intro h1 h2
    split_ifs <;> first | rfl | omega

/-- Witness for the amended C3 at the concrete layout `(64, 8192)`. -/
theorem layout_to_allocator_large_iff_witness :
    (64 : Nat) ≤ 4096 ∧ (4096 : Nat) < 8192 ∧
    Heap.layout_to_allocator ⟨64, 8192⟩ = HeapAllocator.Slab4096Bytes :=
  ⟨by decide, by decide,
    (layout_to_allocator_large_iff ⟨64, 8192⟩).2 (by decide) (by decide)⟩

/-- Counterexample to C4: on a heap whose routed class (Slab-64 for
layout `(8, 8)`) is out of free blocks, the `GlobalAlloc` surface does
not return a null sentinel: it panics with "allocate: failed". -/
theorem globalAlloc_oom_counterexample :
    heap64Exhausted.allocate ⟨8, 8⟩ = Except.error AllocErr.OutOfMemory ∧
    LockedHeap.globalAlloc (some heap64Exhausted) ⟨8, 8⟩ =
      Except.error "allocate: failed" :=
  ⟨rfl, rfl⟩

/-- C4 amended: whenever `Heap::allocate` reports an allocation
failure, `GlobalAlloc for LockedHeap::alloc` on the initialised heap
panics with "allocate: failed" instead of returning a null pointer. -/
theorem globalAlloc_oom_fatal :
    ∀ (heap : Heap) (l : Layout) (e : AllocErr),
      heap.allocate l = Except.error e →
      LockedHeap.globalAlloc (some heap) l = Except.error "allocate: failed" := by
  intro heap l e h
  simp [LockedHeap.globalAlloc, h]

/-- Witness for the amended C4 on the exhausted Slab-64 heap. -/
theorem globalAlloc_oom_fatal_witness :
    LockedHeap.globalAlloc (some heap64Exhausted) ⟨16, 8⟩ =
      Except.error "allocate: failed" :=
  globalAlloc_oom_fatal heap64Exhausted ⟨16, 8⟩ AllocErr.OutOfMemory rfl

/-- C5: under the construction preconditions, `Heap::new` over
`[a, a+n)` splits the range into 8 equal consecutive sub-ranges of
size `n / 8`, builds the seven slab classes in ascending block-size
order (64 through 4096) on the first seven, hands the last to the
linked-list allocator, and the eight ranges are pairwise disjoint and
cover `[a, a+n)` exactly. -/
theorem heap_new_partition :
    ∀ a n : Nat, a % 4096 = 0 → 32768 ≤ n → n % 32768 = 0 →
      ∃ h, Heap.new a n = Except.ok h ∧
        h.ranges =
          [ (a, n / 8), (a + n / 8, n / 8), (a + 2 * (n / 8), n / 8),
            (a + 3 * (n / 8), n / 8), (a + 4 * (n / 8), n / 8),
            (a + 5 * (n / 8), n / 8), (a + 6 * (n / 8), n / 8),
            (a + 7 * (n / 8), n / 8) ] ∧
        [ h.slab_64_bytes.blockSize, h.slab_128_bytes.blockSize,
          h.slab_256_bytes.blockSize, h.slab_512_bytes.blockSize,
          h.slab_1024_bytes.blockSize, h.slab_2048_bytes.blockSize,
          h.slab_4096_bytes.blockSize ] = [64, 128, 256, 512, 1024, 2048, 4096] ∧
        List.Pairwise rangesDisjoint h.ranges ∧
        (∀ x, (a ≤ x ∧ x < a + n) ↔ ∃ r ∈ h.ranges, r.1 ≤ x ∧ x < r.1 + r.2) := by
  intro a n h1 h2 h3
  refine ⟨Heap.build a n, ?_, rfl, rfl, ?_, ?_⟩
  · simp only [Heap.new, MIN_HEAP_SIZE, NUM_OF_SLABS, MIN_SLAB_SIZE]
    rw [if_neg (by omega), if_neg (by omega), if_neg (by omega)]
  · simp only [Heap.ranges, Heap.build, Slab.new, LinkedListHeap.new, NUM_OF_SLABS]
    simp [List.pairwise_cons, rangesDisjoint]
    omega
  · intro x
    simp only [Heap.ranges, Heap.build, Slab.new, LinkedListHeap.new, NUM_OF_SLABS,
      List.mem_cons, List.not_mem_nil, or_false, exists_eq_or_imp, exists_eq_left]
    omega

/-- Witness for C5 over the concrete range `[0, 32768)`. -/
theorem heap_new_partition_witness :
    (0 : Nat) % 4096 = 0 ∧ (32768 : Nat) ≤ 32768 ∧ (32768 : Nat) % 32768 = 0 ∧
    ∃ h, Heap.new 0 32768 = Except.ok h ∧ List.Pairwise rangesDisjoint h.ranges := by
  refine ⟨by decide, by decide, by decide, ?_⟩
  obtain ⟨h, hok, -, -, hpw, -⟩ :=
    heap_new_partition 0 32768 (by decide) (by decide) (by decide)
  exact ⟨h, hok, hpw⟩

/-- C6: on an uninitialised (`empty`) LockedHeap, every allocation,
deallocation, and usable_size entry point — through both the `Alloc`
impl and the `GlobalAlloc` impl — is fatal (panics) rather than
returning a failure value. -/
theorem lockedHeap_empty_fatal :
    ∀ (layout : Layout) (ptr : Nat),
      LockedHeap.alloc LockedHeap.emptyState layout =
        Except.error "allocate: heap not initialized" ∧
      LockedHeap.dealloc LockedHeap.emptyState ptr layout =
        Except.error "deallocate: heap not initialized" ∧
      LockedHeap.usable_size LockedHeap.emptyState layout =
        Except.error "usable_size: heap not initialized" ∧
      LockedHeap.globalAlloc LockedHeap.emptyState layout =
        Except.error "allocate: heap not initialzied" ∧
      LockedHeap.globalDealloc LockedHeap.emptyState ptr layout =
        Except.error "deallocate: heap not initialized" :=
  fun _ _ => ⟨rfl, rfl, rfl, rfl, rfl⟩

/-- C7: `GlobalAlloc::dealloc` on an initialised LockedHeap with the
null pointer is a no-op: the heap state is returned unchanged and no
deallocation is delegated. -/
theorem globalDealloc_null_noop :
    ∀ (heap : Heap) (layout : Layout),
      LockedHeap.globalDealloc (some heap) 0 layout = Except.ok (some heap) := by
  intro heap layout
  simp [LockedHeap.globalDealloc]

/-- C8: `Heap::new` succeeds exactly when its three assertions hold —
start address 4096-aligned, size at least 32768, and size a multiple of
32768; otherwise an assertion fires (a panic, embedded as `.error`). -/
theorem heap_new_assertions :
    ∀ a n : Nat,
      (∃ h, Heap.new a n = Except.ok h) ↔
        (a % 4096 = 0 ∧ 32768 ≤ n ∧ n % 32768 = 0) := by
  intro a n
  simp only [Heap.new, MIN_HEAP_SIZE, NUM_OF_SLABS, MIN_SLAB_SIZE]
  split_ifs <;> simp_all

/-- C9: `Heap::usable_size` returns `(size, B)` where B is the block
size of the class chosen by `layout_to_allocator`, and `(size, size)`
when the router chooses the linked-list (large) allocator. -/
theorem usable_size_matches_router :
    ∀ (h : Heap) (l : Layout),
      (∀ B, blockSizeOf (Heap.layout_to_allocator l) = some B →
        Heap.usable_size h l = (l.size, B)) ∧
      (Heap.layout_to_allocator l = HeapAllocator.LinkedListAllocator →
        Heap.usable_size h l = (l.size, l.size)) := by
  intro h l
  cases hA : Heap.layout_to_allocator l <;>
    simp [Heap.usable_size, hA, blockSizeOf]

/-- Witness for C9 at the concrete layout `(8, 8)` on the test heap. -/
theorem usable_size_matches_router_witness :
    blockSizeOf (Heap.layout_to_allocator ⟨8, 8⟩) = some 64 ∧
    Heap.usable_size testHeap ⟨8, 8⟩ = (8, 64) :=
  ⟨rfl, (usable_size_matches_router testHeap ⟨8, 8⟩).1 64 rfl⟩

/-- C10: `LockedHeap::init` overwrites the slot without consulting its
previous contents: on an already-populated LockedHeap the existing heap
is discarded and replaced by the freshly built one, and the result is
the same whatever state the slot was in. -/
theorem init_discards_existing :
    ∀ (old : Heap) (a n : Nat),
      a % 4096 = 0 → 32768 ≤ n → n % 32768 = 0 →
      (LockedHeap.init (some old) a n = Except.ok (some (Heap.build a n)) ∧
       ∀ s s' : Option Heap, LockedHeap.init s a n = LockedHeap.init s' a n) := by
  intro old a n h1 h2 h3
  constructor
  · simp only [LockedHeap.init, Heap.new, MIN_HEAP_SIZE, NUM_OF_SLABS, MIN_SLAB_SIZE]
    rw [if_neg (by omega), if_neg (by omega), if_neg (by omega)]
    rfl
  · intro s s'
    rfl

/-- Witness for C10: initialising over a populated test heap yields the
fresh heap over `[0, 32768)`, the old contents discarded. -/
theorem init_discards_existing_witness :
    LockedHeap.init (some testHeap) 0 32768 = Except.ok (some (Heap.build 0 32768)) :=
  (init_discards_existing testHeap 0 32768 (by decide) (by decide) (by decide)).1

end JRust
